import Mathlib

set_option maxRecDepth 1000000
set_option maxHeartbeats 1000000

/-!
Verification of the core pipeline of `main.py`: text → bitmap → calendar
dates → ordered timestamp schedule.

Embedding conventions:
* A calendar date is its proleptic-Gregorian ordinal (an `Int`), exactly as in
  Python's `datetime.date.toordinal` (0001-01-01 has ordinal 1).  Python's
  `date ± timedelta(days=k)` is ordinal `± k`; `d.year` is `yearOf`; Python's
  floor division `//` is `Int.fdiv`.
* A `datetime(y, mo, dy, h, mi, s)` value is embedded as the number of seconds
  `86400 * ordinal(y, mo, dy) + 3600*h + 60*mi + s`; this encoding is a
  bijection that preserves the (lexicographic) `datetime` order, so sorting
  and comparing timestamps is faithfully represented.
* The Pillow rendering backend (default font, `ImageDraw.text` onto the
  1200×200 "L"-mode canvas of lines 62-65) is an external dependency, not code
  of this repository; it is modelled as an explicit parameter
  `draw : String → List (List Nat)` producing the grayscale canvas (rows of
  pixel intensities) after the text has been drawn.  `getbbox`, `crop`,
  nearest-neighbour `resize` and pixel access are embedded below.
* Python `date` values are bounded (`date.min` = 0001-01-01, `date.max` =
  9999-12-31); constructors and day arithmetic raise outside that range.  The
  unbounded functions below give the semantics inside the representable range;
  the `...P` variants return `Option` and mirror the raising behaviour.
-/

namespace Commit

/-- Gregorian leap-year test, as in Python's `calendar.isleap` /
`datetime._is_leap`. -/
def isLeap (y : Int) : Bool :=
  (y % 4 == 0 && y % 100 != 0) || y % 400 == 0

/-- Number of days strictly before January 1 of year `y`
(Python `datetime._days_before_year`); `//` is floor division. -/
def daysBeforeYear (y : Int) : Int :=
  365 * (y - 1) + (y - 1).fdiv 4 - (y - 1).fdiv 100 + (y - 1).fdiv 400

/-- The month lengths of year `y`, January first (Python `_DAYS_IN_MONTH`). -/
def monthLengths (y : Int) : List Nat :=
  [31, if isLeap y then 29 else 28, 31, 30, 31, 30, 31, 31, 30, 31, 30, 31]

/-- Days in month `m` (1-indexed) of year `y` (Python `_days_in_month`). -/
def daysInMonth (y : Int) (m : Nat) : Nat :=
  (monthLengths y).getD (m - 1) 0

/-- Days of year `y` strictly before month `m` (Python `_days_before_month`). -/
def daysBeforeMonth (y : Int) (m : Nat) : Nat :=
  ((monthLengths y).take (m - 1)).sum

/-- Proleptic-Gregorian ordinal of the date `y-m-d`
(Python `date(y, m, d).toordinal()`). -/
def toOrdinal (y : Int) (m d : Nat) : Int :=
  daysBeforeYear y + (daysBeforeMonth y m : Int) + (d : Int)

/-- Python `date.weekday()` on ordinals: Monday = 0 … Sunday = 6. -/
def weekday (o : Int) : Int := (o + 6) % 7

/-- Lines 42-44 of main.py: `d - timedelta(days=(d.weekday() + 1) % 7)`. -/
def sunday_on_or_before (o : Int) : Int :=
  o - ((weekday o + 1) % 7)

/-- The `start` value of `all_dates_for_year_grid` (line 51):
`sunday_on_or_before(date(year, 1, 1))`. -/
def gridStart (year : Int) : Int :=
  sunday_on_or_before (toOrdinal year 1 1)

/-- Lines 46-53 of main.py: the 53×7 matrix of dates, indexed `[x][y]`,
cell `(x, y)` holding `start + timedelta(days=7*x + y)`. -/
def all_dates_for_year_grid (year : Int) : List (List Int) :=
  (List.range 53).map fun (x : Nat) =>
    (List.range 7).map fun (y : Nat) => gridStart year + (7 * (x : Int) + (y : Int))

/-- The date of grid cell `(x, y)`: `start + (7*x + y)` days. -/
def cellDate (year : Int) (x y : Nat) : Int :=
  gridStart year + (7 * (x : Int) + (y : Int))

/-- The year a given ordinal falls in (Python `date.fromordinal(o).year`),
by 400/100/4/1-year cycle decomposition as in Python `datetime._ord2ymd`. -/
def yearOf (o : Int) : Int :=
  let n := o - 1
  let n400 := n.fdiv 146097
  let r400 := n - 146097 * n400
  let n100 := min (r400.fdiv 36524) 3
  let r100 := r400 - 36524 * n100
  let n4 := r100.fdiv 1461
  let r4 := r100 - 1461 * n4
  let n1 := min (r4.fdiv 365) 3
  400 * n400 + 100 * n100 + 4 * n4 + n1 + 1

/-- Seconds-encoding of `datetime(d.year, d.month, d.day, 12, 0, 0)` (line 98)
for the date of ordinal `d`: noon of day `d`. -/
def noonTS (d : Int) : Int := 86400 * d + 43200

/-- The date component of an encoded timestamp. -/
def tsDate (t : Int) : Int := t.fdiv 86400

/-- The year of an encoded timestamp (`ts.year` of the `datetime`). -/
def tsYear (t : Int) : Int := yearOf (tsDate t)

/-! ### The rasterizer (lines 55-78)

An image is a list of rows of grayscale intensities ("L" mode). -/

/-- Pixel access `data[x, y]`; out-of-range reads default to 0 (never reached
on the in-range accesses performed by the source). -/
def getpix (img : List (List Nat)) (x y : Nat) : Nat :=
  (img.getD y []).getD x 0

/-- The coordinates of all non-zero pixels, row by row. -/
def litPoints (img : List (List Nat)) : List (Nat × Nat) :=
  (List.range img.length).flatMap fun y =>
    (List.range (img.getD y []).length).filterMap fun x =>
      if getpix img x y ≠ 0 then some (x, y) else none

/-- Pillow `Image.getbbox`: `none` when the image has no non-zero pixel,
otherwise `some (left, upper, right, lower)`, right/lower exclusive. -/
def getbbox (img : List (List Nat)) : Option (Nat × Nat × Nat × Nat) :=
  match litPoints img with
  | [] => none
  | p :: ps =>
    some (ps.foldl (fun a q => min a q.1) p.1,
          ps.foldl (fun a q => min a q.2) p.2,
          ps.foldl (fun a q => max a q.1) p.1 + 1,
          ps.foldl (fun a q => max a q.2) p.2 + 1)

/-- Pillow `Image.crop((l, u, r, lo))`: the `(lo-u)`-row, `(r-l)`-column
sub-image starting at `(l, u)`. -/
def crop (img : List (List Nat)) (l u r lo : Nat) : List (List Nat) :=
  (List.range (lo - u)).map fun y =>
    (List.range (r - l)).map fun x => getpix img (l + x) (u + y)

/-- Pillow `Image.resize((w, h), Image.NEAREST)`: destination pixel `(x, y)`
reads the source pixel nearest to the centre `((x+0.5)·sw/w, (y+0.5)·sh/h)`. -/
def resizeNearest (img : List (List Nat)) (w h : Nat) : List (List Nat) :=
  let sh := img.length
  let sw := (img.getD 0 []).length
  (List.range h).map fun y =>
    (List.range w).map fun x =>
      getpix img ((2 * x + 1) * sw / (2 * w)) ((2 * y + 1) * sh / (2 * h))

/-- Lines 55-78 of main.py, with the rendering backend (font + `ImageDraw.text`
on the 1200×200 canvas) abstracted as `draw`: compute the bounding box of the
drawn canvas; if empty return the all-false 7×53 grid; otherwise crop to the
box, resize to 53×7 with nearest-neighbour, and binarize (non-zero ↦ true).
Returns a 7×53 grid indexed `[y][x]`. -/
def rasterize_text_to_53x7 (draw : String → List (List Nat)) (text : String) :
    List (List Bool) :=
  let tmp := draw text
  match getbbox tmp with
  | none => List.replicate 7 (List.replicate 53 false)
  | some (l, u, r, lo) =>
    let small := resizeNearest (crop tmp l u r lo) 53 7
    (List.range 7).map fun y =>
      (List.range 53).map fun x => getpix small x y != 0

/-- Entry `pix[y][x]` of the rasterized word. -/
def pixAt (draw : String → List (List Nat)) (word : String) (x y : Nat) : Bool :=
  ((rasterize_text_to_53x7 draw word).getD y []).getD x false

/-! ### The schedule builder (lines 80-102) -/

/-- The `selected` list of `compute_commit_schedule` (lines 89-99), built in
loop order (`x` outer over 53, `y` inner over 7): skip unlit cells, skip cells
whose date falls outside `year`, otherwise emit noon of the cell's date. -/
def selectedList (draw : String → List (List Nat)) (word : String) (year : Int) :
    List Int :=
  let pix := rasterize_text_to_53x7 draw word
  let cal := all_dates_for_year_grid year
  (List.range 53).flatMap fun x =>
    (List.range 7).filterMap fun y =>
      if (pix.getD y []).getD x false then
        let d := (cal.getD x []).getD y 0
        if yearOf d = year then some (noonTS d) else none
      else none

/-- Lines 80-102 of main.py: the selected timestamps, sorted ascending. -/
def compute_commit_schedule (draw : String → List (List Nat)) (word : String)
    (year : Int) : List Int :=
  (selectedList draw word year).mergeSort fun a b => decide (a ≤ b)

/-! ### Python date-range bounded (`Option`) variants

Python `date` raises `ValueError`/`OverflowError` outside
[0001-01-01, 9999-12-31]; these variants return `none` exactly there. -/

/-- Ordinal of `date.min` (0001-01-01). -/
def pyMinOrd : Int := 1

/-- Ordinal of `date.max` (9999-12-31). -/
def pyMaxOrd : Int := 3652059

/-- Python `date(y, m, d)`: `none` (raise) on out-of-range components. -/
def mkDate (y : Int) (m d : Nat) : Option Int :=
  if 1 ≤ y ∧ y ≤ 9999 ∧ 1 ≤ m ∧ m ≤ 12 ∧ 1 ≤ d ∧ d ≤ daysInMonth y m
  then some (toOrdinal y m d) else none

/-- Python `d + timedelta(days=k)`: `none` (raise `OverflowError`) when the
result leaves the representable date range. -/
def shiftDays (o k : Int) : Option Int :=
  if pyMinOrd ≤ o + k ∧ o + k ≤ pyMaxOrd then some (o + k) else none

/-- Function `sunday_on_or_before` with Python's date bounds. -/
def sunday_on_or_beforeP (o : Int) : Option Int :=
  shiftDays o (-((weekday o + 1) % 7))

/-- Function `all_dates_for_year_grid` with Python's date bounds: `none` exactly when
the Python code raises (`date(year, 1, 1)` invalid, or a cell of the grid
leaves the representable range). -/
def all_dates_for_year_gridP (year : Int) : Option (List (List Int)) := do
  let jan1 ← mkDate year 1 1
  let start ← sunday_on_or_beforeP jan1
  (List.range 53).mapM fun (x : Nat) =>
    (List.range 7).mapM fun (y : Nat) => shiftDays start (7 * (x : Int) + (y : Int))

/-- Sunday test, in Python's weekday convention (`weekday` = 6). -/
def isSundayB (o : Int) : Bool := weekday o == 6

/-! ### Helper lemmas -/

lemma flatMap_congr_mem {α β : Type} {l : List α} {f g : α → List β}
    (h : ∀ a ∈ l, f a = g a) : l.flatMap f = l.flatMap g := by
  induction l with
  | nil => rfl
  | cons a l ih =>
    simp only [List.flatMap_cons]
    rw [h a (by simp), ih fun b hb => h b (by simp [hb])]

lemma filterMap_congr_mem {α β : Type} {l : List α} {f g : α → Option β}
    (h : ∀ a ∈ l, f a = g a) : l.filterMap f = l.filterMap g := by
  induction l with
  | nil => rfl
  | cons a l ih =>
    simp only [List.filterMap_cons]
    rw [h a (by simp), ih fun b hb => h b (by simp [hb])]

lemma grid_getD (year : Int) (x y : Nat) (hx : x < 53) (hy : y < 7) :
    ((all_dates_for_year_grid year).getD x []).getD y 0 = cellDate year x y := by
  unfold all_dates_for_year_grid cellDate
  simp [List.getD_eq_getElem?_getD, List.getElem?_range, hx, hy]

lemma grid_flatten (year : Int) :
    (all_dates_for_year_grid year).flatten
      = (List.range 371).map fun (k : Nat) => gridStart year + (k : Int) := by
  have h0 : (all_dates_for_year_grid year).flatten
      = (List.range 53).flatMap fun (x : Nat) =>
          (List.range 7).map fun (y : Nat) =>
            gridStart year + (7 * (x : Int) + (y : Int)) := rfl
  rw [h0]
  have h1 : ∀ x ∈ List.range 53,
      ((List.range 7).map fun (y : Nat) => gridStart year + (7 * (x : Int) + (y : Int)))
        = ((List.range 7).map fun (y : Nat) => 7 * x + y).map fun (k : Nat) =>
            gridStart year + (k : Int) := by
    intro x _
    rw [List.map_map]
    apply List.map_congr_left
    intro y _
    simp only [Function.comp]
    push_cast
    ring
  rw [flatMap_congr_mem h1, ← List.map_flatMap]
  have h2 : ((List.range 53).flatMap fun x => (List.range 7).map fun y => 7 * x + y)
      = List.range 371 := by decide
  rw [h2]

/-! ### C3: sunday_on_or_before -/

/-- C3: for every date `d`, `sunday_on_or_before` returns `d` itself when `d`
is a Sunday, and otherwise the most recent Sunday strictly before `d`. -/
theorem claim3_sunday_on_or_before (d : Int) :
    (isSundayB d = true → sunday_on_or_before d = d) ∧
    (isSundayB d = false →
      isSundayB (sunday_on_or_before d) = true ∧ sunday_on_or_before d < d ∧
      ∀ s : Int, isSundayB s = true → s < d → s ≤ sunday_on_or_before d) := by
  unfold isSundayB sunday_on_or_before weekday
  constructor
  · intro h
    rw [beq_iff_eq] at h
    omega
  · intro h
    rw [beq_eq_false_iff_ne] at h
    refine ⟨by rw [beq_iff_eq]; omega, by omega, ?_⟩
    intro s hs hlt
    rw [beq_iff_eq] at hs
    omega

/-- Witness for C3: ordinal 7 (0001-01-07) is a Sunday and is returned
unchanged; ordinal 3 (a Wednesday) is mapped strictly downwards. -/
theorem claim3_witness :
    sunday_on_or_before 7 = 7 ∧ sunday_on_or_before 3 < 3 :=
  ⟨(claim3_sunday_on_or_before 7).1 (by decide),
   ((claim3_sunday_on_or_before 3).2 (by decide)).2.1⟩

/-! ### C7 and C8: rasterizer shape -/

/-- C7: for every rendering backend and every input string, the rasterized
grid has exactly 7 rows of exactly 53 booleans. -/
theorem claim7_raster_dims (draw : String → List (List Nat)) (text : String) :
    (rasterize_text_to_53x7 draw text).length = 7 ∧
    ∀ row ∈ rasterize_text_to_53x7 draw text, row.length = 53 := by
  cases hb : getbbox (draw text) with
  | none =>
    simp only [rasterize_text_to_53x7, hb]
    constructor
    · simp
    · intro row hrow
      rw [List.eq_of_mem_replicate hrow]
      simp
  | some b =>
    obtain ⟨l, u, r, lo⟩ := b
    simp only [rasterize_text_to_53x7, hb]
    constructor
    · simp
    · intro row hrow
      rw [List.mem_map] at hrow
      obtain ⟨y, _, rfl⟩ := hrow
      simp

/-- A one-pixel blank canvas: a rendering backend on which every text draws
nothing. -/
def drawBlank : String → List (List Nat) := fun _ => [[0]]

/-- Witness for C7: the concrete backend `drawBlank` on the empty string. -/
theorem claim7_witness :
    (rasterize_text_to_53x7 drawBlank "").length = 7 ∧
    (List.replicate 53 false).length = 53 :=
  ⟨(claim7_raster_dims drawBlank "").1,
   (claim7_raster_dims drawBlank "").2 (List.replicate 53 false) (by decide)⟩

/-- C8: whenever the rendered canvas has no non-background pixel, the
rasterizer returns the all-false 7×53 grid (the bounding box is empty). -/
theorem claim8_blank_raster (draw : String → List (List Nat)) (text : String)
    (h : ∀ x y : Nat, getpix (draw text) x y = 0) :
    rasterize_text_to_53x7 draw text
      = List.replicate 7 (List.replicate 53 false) := by
  have hlit : litPoints (draw text) = [] := by
    unfold litPoints
    rw [List.flatMap_eq_nil_iff]
    intro y _
    rw [List.filterMap_eq_nil_iff]
    intro x _
    simp [h x y]
  have hbb : getbbox (draw text) = none := by
    unfold getbbox
    rw [hlit]
  simp only [rasterize_text_to_53x7, hbb]

/-- Witness for C8: the blank backend renders the empty string with no lit
pixel, and the rasterizer returns the all-false grid. -/
theorem claim8_witness :
    rasterize_text_to_53x7 drawBlank ""
      = List.replicate 7 (List.replicate 53 false) :=
  claim8_blank_raster drawBlank ""
    (by intro x y; cases x <;> cases y <;> rfl)

/-! ### C2: calendar grid anchor and cell formula -/

/-- C2: the grid's `[0][0]` cell is the Sunday on or before January 1, every
cell `[x][y]` is that anchor plus `7*x + y` days, and concretely for 2021 the
anchor is 2020-12-27 with `[1][0]` equal to 2021-01-03. -/
theorem claim2_grid_anchor (year : Int) :
    ((all_dates_for_year_grid year).getD 0 []).getD 0 0
        = sunday_on_or_before (toOrdinal year 1 1) ∧
    (∀ x y : Nat, x < 53 → y < 7 →
      ((all_dates_for_year_grid year).getD x []).getD y 0
        = sunday_on_or_before (toOrdinal year 1 1) + (7 * (x : Int) + (y : Int))) ∧
    sunday_on_or_before (toOrdinal 2021 1 1) = toOrdinal 2020 12 27 ∧
    ((all_dates_for_year_grid 2021).getD 0 []).getD 0 0 = toOrdinal 2020 12 27 ∧
    ((all_dates_for_year_grid 2021).getD 1 []).getD 0 0 = toOrdinal 2021 1 3 := by
  refine ⟨?_, ?_, by decide, by decide, by decide⟩
  · rw [grid_getD year 0 0 (by norm_num) (by norm_num)]
    unfold cellDate gridStart
    simp
  · intro x y hx hy
    rw [grid_getD year x y hx hy]
    unfold cellDate gridStart
    rfl

/-- Witness for C2: the general cell formula applied at year 1999, cell
`(1, 0)`. -/
theorem claim2_witness :
    ((all_dates_for_year_grid 1999).getD 1 []).getD 0 0
      = sunday_on_or_before (toOrdinal 1999 1 1)
          + (7 * ((1 : Nat) : Int) + ((0 : Nat) : Int)) :=
  (claim2_grid_anchor 1999).2.1 1 0 (by decide) (by decide)

/-! ### C9: grid shape and strict monotonicity -/

/-- C9: the calendar grid is 53 columns of 7 dates (371 entries), and in
row-major traversal (`x` slowest, then `y`) the dates are strictly
increasing. -/
theorem claim9_grid_monotone (year : Int) :
    (all_dates_for_year_grid year).length = 53 ∧
    (∀ col ∈ all_dates_for_year_grid year, col.length = 7) ∧
    (all_dates_for_year_grid year).flatten.length = 371 ∧
    List.Pairwise (fun a b : Int => a < b)
      (all_dates_for_year_grid year).flatten := by
  refine ⟨by simp [all_dates_for_year_grid], ?_, ?_, ?_⟩
  · intro col hcol
    unfold all_dates_for_year_grid at hcol
    rw [List.mem_map] at hcol
    obtain ⟨x, _, rfl⟩ := hcol
    simp
  · rw [grid_flatten]
    simp
  · rw [grid_flatten, List.pairwise_map]
    apply (List.pairwise_lt_range 371).imp
    intro a b hab
    omega

/-- Witness for C9: the first column of the 2021 grid is a member of the grid
and has 7 entries. -/
theorem claim9_witness :
    ((all_dates_for_year_grid 2021).getD 0 []).length = 7 :=
  (claim9_grid_monotone 2021).2.1 ((all_dates_for_year_grid 2021).getD 0 [])
    (by decide)

/-! ### The schedule as a filterMap over the cell enumeration -/

/-- The contribution of cell `p = (x, y)` to the `selected` list: `none` when
the pixel is unlit or the cell's date falls outside `year`, otherwise noon of
the cell's date. -/
def cellG (draw : String → List (List Nat)) (word : String) (year : Int)
    (p : Nat × Nat) : Option Int :=
  if pixAt draw word p.1 p.2 then
    if yearOf (cellDate year p.1 p.2) = year
    then some (noonTS (cellDate year p.1 p.2))
    else none
  else none

lemma selectedList_def (draw : String → List (List Nat)) (w : String) (year : Int) :
    selectedList draw w year
      = (List.range 53).flatMap fun (x : Nat) =>
          (List.range 7).filterMap fun (y : Nat) =>
            if pixAt draw w x y then
              if yearOf (((all_dates_for_year_grid year).getD x []).getD y 0) = year
              then some (noonTS (((all_dates_for_year_grid year).getD x []).getD y 0))
              else none
            else none := rfl

lemma selectedList_eq_filterMap (draw : String → List (List Nat)) (w : String)
    (year : Int) :
    selectedList draw w year
      = (List.range 371).filterMap fun (k : Nat) =>
          cellG draw w year (k / 7, k % 7) := by
  rw [selectedList_def]
  have h1 : ∀ x ∈ List.range 53,
      ((List.range 7).filterMap fun (y : Nat) =>
          if pixAt draw w x y then
            if yearOf (((all_dates_for_year_grid year).getD x []).getD y 0) = year
            then some (noonTS (((all_dates_for_year_grid year).getD x []).getD y 0))
            else none
          else none)
        = ((List.range 7).map fun (y : Nat) => ((x, y) : Nat × Nat)).filterMap
            (cellG draw w year) := by
    intro x hx
    rw [List.mem_range] at hx
    rw [List.filterMap_map]
    apply filterMap_congr_mem
    intro y hy
    rw [List.mem_range] at hy
    show _ = cellG draw w year (x, y)
    unfold cellG
    simp only [grid_getD year x y hx hy]
  rw [flatMap_congr_mem h1, ← List.filterMap_flatMap]
  have h2 : ((List.range 53).flatMap fun (x : Nat) =>
        (List.range 7).map fun (y : Nat) => ((x, y) : Nat × Nat))
      = (List.range 371).map fun (k : Nat) => ((k / 7, k % 7) : Nat × Nat) := by
    decide
  rw [h2, List.filterMap_map]
  rfl

lemma cellG_some {draw : String → List (List Nat)} {w : String} {year : Int}
    {x y : Nat} {t : Int} (h : cellG draw w year (x, y) = some t) :
    t = noonTS (cellDate year x y) ∧ pixAt draw w x y = true ∧
      yearOf (cellDate year x y) = year := by
  unfold cellG at h
  split at h
  · split at h
    · exact ⟨(Option.some.inj h).symm, by assumption, by assumption⟩
    · cases h
  · cases h

lemma cellG_eq_some_of {draw : String → List (List Nat)} {w : String} {year : Int}
    {x y : Nat} (h1 : pixAt draw w x y = true)
    (h2 : yearOf (cellDate year x y) = year) :
    cellG draw w year (x, y) = some (noonTS (cellDate year x y)) := by
  unfold cellG
  dsimp only
  rw [if_pos h1, if_pos h2]

lemma cellDate_div_mod (year : Int) (k : Nat) :
    cellDate year (k / 7) (k % 7) = gridStart year + (k : Int) := by
  unfold cellDate
  have h7 : 7 * (k / 7) + k % 7 = k := Nat.div_add_mod k 7
  omega

lemma selectedList_pairwise (draw : String → List (List Nat)) (w : String)
    (year : Int) :
    List.Pairwise (fun a b : Int => a < b) (selectedList draw w year) := by
  rw [selectedList_eq_filterMap, List.pairwise_filterMap]
  refine (List.pairwise_lt_range 371).imp ?_
  intro k1 k2 hk
  intro t1 ht1 t2 ht2
  have e1 := (cellG_some (Option.mem_def.mp ht1)).1
  have e2 := (cellG_some (Option.mem_def.mp ht2)).1
  rw [e1, e2, cellDate_div_mod, cellDate_div_mod]
  unfold noonTS
  omega

lemma schedule_eq_selected (draw : String → List (List Nat)) (w : String)
    (year : Int) :
    compute_commit_schedule draw w year = selectedList draw w year := by
  unfold compute_commit_schedule
  apply List.mergeSort_of_sorted
  refine (selectedList_pairwise draw w year).imp ?_
  intro a b hab
  simp only [decide_eq_true_eq]
  omega

/-! ### C1: the schedule is exactly the qualifying cells at noon -/

/-- C1: the schedule contains exactly one entry for each grid cell `(x, y)`
(with `x < 53`, `y < 7`) whose pixel is lit and whose mapped date falls in
`year`, that entry being noon of the cell's date; and it contains nothing
else. -/
theorem claim1_schedule_exact (draw : String → List (List Nat)) (w : String)
    (year : Int) :
    (∀ x y : Nat, x < 53 → y < 7 → pixAt draw w x y = true →
      yearOf (cellDate year x y) = year →
      (compute_commit_schedule draw w year).count (noonTS (cellDate year x y)) = 1) ∧
    ∀ t ∈ compute_commit_schedule draw w year,
      ∃ x y : Nat, x < 53 ∧ y < 7 ∧ pixAt draw w x y = true ∧
        yearOf (cellDate year x y) = year ∧ t = noonTS (cellDate year x y) := by
  constructor
  · intro x y hx hy hpix hyear
    rw [schedule_eq_selected]
    have hmem : noonTS (cellDate year x y) ∈ selectedList draw w year := by
      rw [selectedList_eq_filterMap, List.mem_filterMap]
      refine ⟨7 * x + y, by rw [List.mem_range]; omega, ?_⟩
      have e1 : (7 * x + y) / 7 = x := by omega
      have e2 : (7 * x + y) % 7 = y := by omega
      rw [e1, e2]
      exact cellG_eq_some_of hpix hyear
    have hnodup : (selectedList draw w year).Nodup :=
      (selectedList_pairwise draw w year).imp Int.ne_of_lt
    exact List.count_eq_one_of_mem hnodup hmem
  · intro t ht
    rw [schedule_eq_selected, selectedList_eq_filterMap, List.mem_filterMap] at ht
    obtain ⟨k, hk, hsome⟩ := ht
    rw [List.mem_range] at hk
    obtain ⟨h1, h2, h3⟩ := cellG_some hsome
    exact ⟨k / 7, k % 7, by omega, by omega, h2, h3, h1⟩

/-- An all-lit rendering backend: a single non-zero pixel, which the
rasterizer scales up to a fully lit 53×7 grid. -/
def drawDot : String → List (List Nat) := fun _ => [[1]]

/-- Witness for C1: with the all-lit backend, cell `(1, 0)` of 2021 (the date
2021-01-03) contributes exactly one schedule entry, and the entry at noon of
that date is accounted for by a qualifying cell. -/
theorem claim1_witness :
    (compute_commit_schedule drawDot "A" 2021).count
        (noonTS (cellDate 2021 1 0)) = 1 ∧
    ∃ x y : Nat, x < 53 ∧ y < 7 ∧ pixAt drawDot "A" x y = true ∧
      yearOf (cellDate 2021 x y) = 2021 ∧
      noonTS (cellDate 2021 1 0) = noonTS (cellDate 2021 x y) :=
  ⟨(claim1_schedule_exact drawDot "A" 2021).1 1 0 (by decide) (by decide)
      (by decide) (by decide),
   (claim1_schedule_exact drawDot "A" 2021).2 (noonTS (cellDate 2021 1 0))
      (by rw [schedule_eq_selected]; decide)⟩

/-! ### C4: no adjacent-year bleed -/

lemma noon_fdiv (d : Int) : (86400 * d + 43200).fdiv 86400 = d := by
  rw [Int.fdiv_eq_ediv _ (by norm_num)]
  omega

/-- C4: every schedule entry's timestamp has year equal to the target year;
cells mapping into an adjacent year are discarded. -/
theorem claim4_no_year_bleed (draw : String → List (List Nat)) (w : String)
    (year : Int) :
    ∀ t ∈ compute_commit_schedule draw w year, tsYear t = year := by
  intro t ht
  rw [schedule_eq_selected, selectedList_eq_filterMap, List.mem_filterMap] at ht
  obtain ⟨k, _, hsome⟩ := ht
  obtain ⟨h1, _, h3⟩ := cellG_some hsome
  rw [h1]
  unfold tsYear tsDate noonTS
  rw [noon_fdiv]
  exact h3

/-- Witness for C4: the schedule entry at noon of 2021-01-03 has year 2021. -/
theorem claim4_witness : tsYear (noonTS (cellDate 2021 1 0)) = 2021 :=
  claim4_no_year_bleed drawDot "A" 2021 (noonTS (cellDate 2021 1 0))
    (by rw [schedule_eq_selected]; decide)

/-! ### C5: the schedule is sorted -/

/-- C5: for every backend, word and year, the schedule is non-decreasing. -/
theorem claim5_schedule_sorted (draw : String → List (List Nat)) (w : String)
    (year : Int) :
    List.Pairwise (fun a b : Int => a ≤ b) (compute_commit_schedule draw w year) := by
  have htrans : ∀ a b c : Int, (fun a b : Int => decide (a ≤ b)) a b →
      (fun a b : Int => decide (a ≤ b)) b c →
      (fun a b : Int => decide (a ≤ b)) a c := by
    intro a b c h1 h2
    simp only [decide_eq_true_eq] at h1 h2 ⊢
    omega
  have htotal : ∀ a b : Int, ((fun a b : Int => decide (a ≤ b)) a b ||
      (fun a b : Int => decide (a ≤ b)) b a) = true := by
    intro a b
    simp only [Bool.or_eq_true, decide_eq_true_eq]
    omega
  have h := @List.sorted_mergeSort Int (fun a b : Int => decide (a ≤ b))
    htrans htotal (selectedList draw w year)
  refine h.imp ?_
  intro a b hab
  simpa using hab

/-! ### C10: distinct cells give distinct timestamps; strict sortedness -/

/-- C10: the cell-to-date map is injective on the 53×7 index space, and the
schedule is strictly increasing, so no two entries share a timestamp. -/
theorem claim10_no_duplicates (draw : String → List (List Nat)) (w : String)
    (year : Int) :
    (∀ x1 y1 x2 y2 : Nat, x1 < 53 → y1 < 7 → x2 < 53 → y2 < 7 →
      cellDate year x1 y1 = cellDate year x2 y2 → x1 = x2 ∧ y1 = y2) ∧
    List.Pairwise (fun a b : Int => a < b) (compute_commit_schedule draw w year) := by
  constructor
  · intro x1 y1 x2 y2 hx1 hy1 hx2 hy2 he
    unfold cellDate at he
    omega
  · rw [schedule_eq_selected]
    exact selectedList_pairwise draw w year

/-- Witness for C10: injectivity applied at cell `(1, 0)` of 2021 against
itself, together with strictness on the all-lit 2021 schedule. -/
theorem claim10_witness :
    ((1 : Nat) = 1 ∧ (0 : Nat) = 0) ∧
    List.Pairwise (fun a b : Int => a < b)
      (compute_commit_schedule drawDot "A" 2021) :=
  ⟨(claim10_no_duplicates drawDot "A" 2021).1 1 0 1 0 (by decide) (by decide)
      (by decide) (by decide) rfl,
   (claim10_no_duplicates drawDot "A" 2021).2⟩

/-! ### C6: totality of the calendar grid

Python `date` is bounded: `date(year, 1, 1)` raises `ValueError` outside
years 1..9999, and `date ± timedelta` raises `OverflowError` when it leaves
[0001-01-01, 9999-12-31].  The grid construction therefore fails for year 1
(the Sunday before 0001-01-01 is not representable), for year 9999 (cell
`[52][6]` falls past 9999-12-31), and for every year outside [1, 9999] —
so the claim that any integer year is accepted is false.  It succeeds for
exactly the years 2..9998. -/

/-- Counterexample to C6 as stated: the grid construction fails (raises, i.e.
returns `none`) for the integer years 10000, 1 and 9999. -/
theorem claim6_counterexample :
    all_dates_for_year_gridP 10000 = none ∧
    all_dates_for_year_gridP 1 = none ∧
    all_dates_for_year_gridP 9999 = none := by
  refine ⟨by decide, by decide, by decide⟩

lemma mapM_option_isSome {α β : Type} {f : α → Option β} {l : List α}
    (h : ∀ a ∈ l, (f a).isSome = true) : (l.mapM f).isSome = true := by
  induction l with
  | nil => rfl
  | cons a l ih =>
    obtain ⟨b, hb⟩ := Option.isSome_iff_exists.mp (h a (by simp))
    obtain ⟨bs, hbs⟩ :=
      Option.isSome_iff_exists.mp (ih fun c hc => h c (by simp [hc]))
    rw [List.mapM_cons, hb, hbs]
    rfl

/-- C6 (amended): the calendar-grid construction is total — and the whole
pipeline never fails — for every year in [2, 9998]; outside that range the
Python date construction or day arithmetic raises instead of producing a
grid. -/
theorem claim6_total_in_range (year : Int) (h1 : 2 ≤ year) (h2 : year ≤ 9998) :
    (all_dates_for_year_gridP year).isSome = true := by
  have hmk : mkDate year 1 1 = some (toOrdinal year 1 1) := by
    unfold mkDate
    rw [if_pos]
    refine ⟨by omega, by omega, by omega, by omega, by omega, ?_⟩
    show 1 ≤ daysInMonth year 1
    unfold daysInMonth monthLengths
    simp
  have hdb : 365 ≤ daysBeforeYear year ∧ daysBeforeYear year ≤ 3651329 := by
    unfold daysBeforeYear
    rw [Int.fdiv_eq_ediv _ (by norm_num), Int.fdiv_eq_ediv _ (by norm_num),
        Int.fdiv_eq_ediv _ (by norm_num)]
    omega
  have hord : toOrdinal year 1 1 = daysBeforeYear year + 1 := by
    unfold toOrdinal daysBeforeMonth monthLengths
    simp
  have hsun : sunday_on_or_beforeP (toOrdinal year 1 1)
      = some (sunday_on_or_before (toOrdinal year 1 1)) := by
    unfold sunday_on_or_beforeP shiftDays sunday_on_or_before weekday pyMinOrd pyMaxOrd
    rw [if_pos]
    · exact congrArg some (by omega)
    · constructor <;> omega
  have hstart : 360 ≤ sunday_on_or_before (toOrdinal year 1 1) ∧
      sunday_on_or_before (toOrdinal year 1 1) ≤ 3651330 := by
    unfold sunday_on_or_before weekday
    omega
  unfold all_dates_for_year_gridP
  rw [hmk]
  simp only [Option.bind_eq_bind, Option.some_bind]
  rw [hsun]
  simp only [Option.some_bind]
  apply mapM_option_isSome
  intro x hx
  rw [List.mem_range] at hx
  apply mapM_option_isSome
  intro y hy
  rw [List.mem_range] at hy
  unfold shiftDays pyMinOrd pyMaxOrd
  rw [if_pos]
  · rfl
  · constructor <;> omega

/-- Witness for C6 (amended): year 2021 lies in the total range and its grid
is produced. -/
theorem claim6_witness : (all_dates_for_year_gridP 2021).isSome = true :=
  claim6_total_in_range 2021 (by decide) (by decide)

end Commit
